import Mathlib

/-!
# Verification of `msal/imds.py` (managed-identity token acquisition)

Shallow embedding of the managed-identity token-acquisition orchestrator of
`src/msal/imds.py`: the three backend adapters (Azure VM / IMDS, App Service,
Service Fabric), the environment resolver `_obtain_token`, the resource/scope
mapper `_scope_to_resource`, and the cache-aside orchestrator
`ManagedIdentity.acquire_token`.

Modelling conventions:
* Python exceptions are modelled with `Except PyErr`; the distinct exception
  classes that the code can raise (`ValueError`, `KeyError`, `TypeError`,
  `AttributeError`) are the constructors of `PyErr`.
* JSON payloads / Python dicts are modelled by the inductive `JVal`
  (association lists for dicts; JSON numbers as `Int`, which is the fragment
  the code exercises).
* `json.loads(resp.text)` is abstracted by letting an HTTP response carry,
  next to its raw body `text`, the parse outcome `loads : Option JVal`
  (`none` models a `ValueError` from `json.loads`).
* `time.time()` is modelled by an explicit `now : Int` parameter passed to
  every function that reads the clock (whole seconds; the code truncates the
  float clock with `int(...)` wherever it is stored or compared).
* The transport collaborator (`http_client.get`) is a pure function
  `HttpClient := HttpRequest → HttpResponse`; every function that may call it
  also returns the list of requests it issued, so that "number of transport
  calls" is a provable quantity.
-/

/-- Python exception classes raised by the code under verification. -/
inductive PyErr where
  | valueError (msg : String)
  | keyError (key : String)
  | typeError (msg : String)
  | attributeError (msg : String)
deriving DecidableEq

/-- JSON values / Python dicts, as produced by `json.loads` and manipulated by
the adapters.  Numbers are modelled as `Int` (the code only ever subtracts and
compares whole-second quantities). -/
inductive JVal where
  | jnull
  | jbool (b : Bool)
  | jnum (n : Int)
  | jstr (s : String)
  | jarr (elems : List JVal)
  | jobj (fields : List (String × JVal))

namespace JVal

/-- Python truthiness (`bool(v)`) for the modelled values. -/
def pyTruthy : JVal → Bool
  | .jnull => false
  | .jbool b => b
  | .jnum n => n != 0
  | .jstr s => !s.isEmpty
  | .jarr xs => !xs.isEmpty
  | .jobj fs => !fs.isEmpty

/-- Key lookup in a dict value (`None` when the value is not a dict). -/
def lookupKey : JVal → String → Option JVal
  | .jobj fs, k => fs.lookup k
  | _, _ => none

/-- Python `k in v` for a dict `v` (the code only uses `in` on dict results). -/
def hasKey (v : JVal) (k : String) : Bool :=
  (v.lookupKey k).isSome

/-- Python `v.get(k, default)`: raises `AttributeError` when `v` is not a
dict, otherwise returns the stored value or the default. -/
def dictGet (v : JVal) (k : String) (default : JVal) : Except PyErr JVal :=
  match v with
  | .jobj fs => .ok ((fs.lookup k).getD default)
  | _ => .error (.attributeError "object has no attribute get")

/-- Python `v[k]` with a string key: `KeyError` when a dict lacks the key,
`TypeError` when `v` is not a dict. -/
def getItem (v : JVal) (k : String) : Except PyErr JVal :=
  match v with
  | .jobj fs =>
    match fs.lookup k with
    | some x => .ok x
    | none => .error (.keyError k)
  | _ => .error (.typeError "value is not subscriptable by str")

end JVal

/-- Python `int(v)`: identity on ints, 0/1 on bools, base-10 parse of a
stripped string (`ValueError` when it does not parse), `TypeError` on other
values. -/
def pyInt : JVal → Except PyErr Int
  | .jnum n => .ok n
  | .jbool b => .ok (if b then 1 else 0)
  | .jstr s =>
    match s.trim.toInt? with
    | some n => .ok n
    | none => .error (.valueError ("invalid literal for int: " ++ s))
  | .jnull => .error (.typeError "int of NoneType")
  | .jarr _ => .error (.typeError "int of list")
  | .jobj _ => .error (.typeError "int of dict")

/-- Python `v - now` where `now : int`: defined on numbers and bools,
`TypeError` otherwise (strings do not subtract ints in Python). -/
def pyNumMinus (v : JVal) (now : Int) : Except PyErr Int :=
  match v with
  | .jnum n => .ok (n - now)
  | .jbool b => .ok ((if b then (1 : Int) else 0) - now)
  | _ => .error (.typeError "unsupported operand types for minus")

mutual

/-- Python `str(v)` for the modelled values (used only to render the
App-Service `error_description`). -/
def pyStr : JVal → String
  | .jstr s => s
  | v => pyRepr v

/-- Python `repr(v)` for the modelled values. -/
def pyRepr : JVal → String
  | .jnull => "None"
  | .jbool b => if b then "True" else "False"
  | .jnum n => toString n
  | .jstr s => "'" ++ s ++ "'"
  | .jarr xs => "[" ++ pyReprList xs ++ "]"
  | .jobj fs => "\x7b" ++ pyReprFields fs ++ "\x7d"

def pyReprList : List JVal → String
  | [] => ""
  | [x] => pyRepr x
  | x :: xs => pyRepr x ++ ", " ++ pyReprList xs

def pyReprFields : List (String × JVal) → String
  | [] => ""
  | [(k, v)] => "'" ++ k ++ "': " ++ pyRepr v
  | (k, v) :: fs => "'" ++ k ++ "': " ++ pyRepr v ++ ", " ++ pyReprFields fs

end

/-- An HTTP GET request as issued by the adapters: URL, query parameters (in
insertion order) and headers. -/
structure HttpRequest where
  url : String
  params : List (String × String)
  headers : List (String × String)
deriving DecidableEq

/-- An HTTP response: the raw body `text`, together with the outcome of
`json.loads(text)` (`none` models the `ValueError` raised on an unparsable
body).  The parse outcome is carried as data because the adapters depend on
the body only through `json.loads`. -/
structure HttpResponse where
  text : String
  loads : Option JVal

/-- The transport collaborator: `http_client.get` as a pure function. -/
def HttpClient : Type := HttpRequest → HttpResponse

/-- Renders the optional insertion `if x: params[k] = x` (Python truthiness:
an empty string is not inserted). -/
def queryParam (k : String) (v : Option String) : List (String × String) :=
  match v with
  | some s => if s.isEmpty then [] else [(k, s)]
  | none => []

/-! ## The resource/scope mapper (`_scope_to_resource`, imds.py lines 17-21)

The mapper delegates to the standard library's `urlparse`, which is not part
of this repository.  The embedding below targets CPython ≥ 3.11
(`urllib.parse.urlsplit`: unsafe-byte stripping, the letter-initial scheme
rule, `_splitnetloc`, and the mismatched-square-bracket check — the latter
raising `ValueError("Invalid IPv6 URL")` in every CPython since 2.7).  Two
raising paths of maintained interpreters are NOT modelled, because they
cannot be modelled faithfully here: `_check_bracketed_host` (validity of a
`[...]`-bracketed host, needing the `ipaddress` parser) and `_checknetloc`
(NFKC-normalization comparison of non-ASCII netlocs, needing the Unicode
tables).  The embedding is therefore exact for the target interpreter only

* on inputs made of ASCII characters containing no square bracket — there a
  netloc can contain no bracket, so `_check_bracketed_host` is not invoked
  and the mismatched-bracket check cannot fire, and `_checknetloc` returns
  immediately on its `netloc.isascii()` fast path (in older interpreters
  these checks do not exist at all).  On this domain no raising path of any
  CPython since 2.7 exists, so the totality results below transfer to every
  supported interpreter; the exact scheme/netloc split is that of
  CPython ≥ 3.11 (earlier interpreters recognize schemes slightly
  differently — the pre-3.6 port-digit heuristic, the pre-3.11 acceptance of
  non-letter-initial schemes — which can change the returned value but never
  makes the call raise); and
* on inputs whose netloc contains a `[` without `]` or a `]` without `[`,
  where it raises the `Invalid IPv6 URL` `ValueError` exactly as every
  CPython since 2.7 does.

Every theorem about `urlsplit` or `_scope_to_resource` below stays inside
these two domains. -/

/-- The characters allowed in a URL scheme after the initial letter
(CPython `scheme_chars`). -/
def schemeChar (c : Char) : Bool :=
  c.isAlpha || c.isDigit || c == '+' || c == '-' || c == '.'

/-- The result of `urlparse`, restricted to the two fields the mapper reads. -/
structure SplitResult where
  scheme : String
  netloc : String
deriving DecidableEq

/-- Extracts the netloc: the characters following `//` up to the first of
`/`, `?`, `#` (CPython `_splitnetloc`). -/
def splitNetloc (rest : List Char) : List Char :=
  rest.takeWhile (fun c => !(c == '/' || c == '?' || c == '#'))

/-- The scheme-recognition step of CPython `urlsplit`: split off a scheme
when the text up to the first `:` is a letter followed by scheme
characters. -/
def splitScheme (cs : List Char) : List Char × List Char :=
  match cs.findIdx? (· == ':') with
  | some i =>
    if 0 < i && (cs.take i).all schemeChar
        && (match cs.head? with | some c => c.isAlpha | none => false) then
      ((cs.take i).map Char.toLower, cs.drop (i + 1))
    else ([], cs)
  | none => ([], cs)

/-- CPython ≥ 3.11 `urllib.parse.urlsplit`, restricted to the `scheme` and
`netloc` fields the mapper reads and to the domains stated in the section
comment: strip the unsafe bytes `\t\r\n`, split off a scheme, then take the
netloc after a leading `//` (`url[:2] == '//'`); a netloc containing `[`
without `]` (or `]` without `[`) raises `ValueError("Invalid IPv6 URL")`. -/
def urlsplit (url : String) : Except PyErr SplitResult :=
  let cs := url.data.filter (fun c => !(c == '\t' || c == '\r' || c == '\n'))
  let scheme := (splitScheme cs).1
  let rest := (splitScheme cs).2
  if rest.take 2 = ['/', '/'] then
    let netloc := splitNetloc (rest.drop 2)
    if (netloc.any (· == '[') && !netloc.any (· == ']'))
        || (netloc.any (· == ']') && !netloc.any (· == '[')) then
      .error (.valueError "Invalid IPv6 URL")
    else .ok ⟨String.mk scheme, String.mk netloc⟩
  else .ok ⟨String.mk scheme, ""⟩

/-- `_scope_to_resource(scope)` (imds.py lines 17-21): `urlparse` the input;
when the scheme is non-empty return `"scheme://netloc"`, otherwise return the
input unchanged.  There is no exception handler, so a `ValueError` from
`urlparse` escapes. -/
def _scope_to_resource (scope : String) : Except PyErr String := do
  let u ← urlsplit scope
  if !u.scheme.isEmpty then
    return u.scheme ++ "://" ++ u.netloc
  return scope

/-! ## The environment resolver and the three backend adapters -/

/-- The slice of `os.environ` that `_obtain_token` reads.  Presence of a
variable (`"X" in os.environ`) is `Option.isSome`; values are never validated
beyond existence, and an empty-string value still counts as present. -/
structure OsEnviron where
  identity_endpoint : Option String
  identity_header : Option String
  identity_server_thumbprint : Option String
deriving DecidableEq

/-- Normalization step of `_obtain_token_on_azure_vm` (imds.py lines 66-78):
parse the body; on a payload with truthy `access_token` and `expires_in`
build the normalized OAuth2 dict, otherwise return the payload as-is.  A
`ValueError` from `json.loads` is logged and re-raised. -/
def imdsNormalize (resp : HttpResponse) : Except PyErr JVal :=
  match resp.loads with
  | none => .error (.valueError ("Expecting value: " ++ resp.text))
  | some payload => do
    let tok ← payload.dictGet "access_token" .jnull
    let ei ← payload.dictGet "expires_in" .jnull
    if tok.pyTruthy && ei.pyTruthy then do
      let n ← pyInt ei
      let res ← payload.dictGet "resource" .jnull
      let tt ← payload.dictGet "token_type" (.jstr "Bearer")
      return .jobj [("access_token", tok), ("expires_in", .jnum n),
                    ("resource", res), ("token_type", tt)]
    else
      return payload

/-- `_obtain_token_on_azure_vm` (imds.py lines 46-78): one GET against the
fixed link-local IMDS endpoint, then normalization.  Returns the result
together with the list of requests issued. -/
def _obtain_token_on_azure_vm (http : HttpClient) (resource : String)
    (client_id object_id mi_res_id : Option String) :
    Except PyErr JVal × List HttpRequest :=
  let req : HttpRequest :=
    { url := "http://169.254.169.254/metadata/identity/oauth2/token",
      params := [("api-version", "2018-02-01"), ("resource", resource)]
        ++ queryParam "client_id" client_id
        ++ queryParam "object_id" object_id
        ++ queryParam "mi_res_id" mi_res_id,
      headers := [("Metadata", "true")] }
  (imdsNormalize (http req), [req])

/-- Normalization step of `_obtain_token_on_app_service` (imds.py lines
111-127): on a payload with truthy `access_token` and `expires_on` build the
normalized dict with `expires_in = int(expires_on) - int(time.time())`;
otherwise synthesize the `invalid_scope` error record. -/
def appServiceNormalize (now : Int) (resp : HttpResponse) : Except PyErr JVal :=
  match resp.loads with
  | none => .error (.valueError ("Expecting value: " ++ resp.text))
  | some payload => do
    let tok ← payload.dictGet "access_token" .jnull
    let eo ← payload.dictGet "expires_on" .jnull
    if tok.pyTruthy && eo.pyTruthy then do
      let n ← pyInt eo
      let res ← payload.dictGet "resource" .jnull
      let tt ← payload.dictGet "token_type" (.jstr "Bearer")
      return .jobj [("access_token", tok), ("expires_in", .jnum (n - now)),
                    ("resource", res), ("token_type", tt)]
    else do
      let sc ← payload.dictGet "statusCode" .jnull
      let msg ← payload.dictGet "message" .jnull
      return .jobj [("error", .jstr "invalid_scope"),
                    ("error_description", .jstr (pyStr sc ++ ", " ++ pyStr msg))]

/-- `_obtain_token_on_app_service` (imds.py lines 80-127): one GET against
the environment-supplied endpoint with the identity-header secret, then
normalization. -/
def _obtain_token_on_app_service (http : HttpClient) (now : Int)
    (endpoint identity_header resource : String)
    (client_id object_id mi_res_id : Option String) :
    Except PyErr JVal × List HttpRequest :=
  let req : HttpRequest :=
    { url := endpoint,
      params := [("api-version", "2019-08-01"), ("resource", resource)]
        ++ queryParam "client_id" client_id
        ++ queryParam "object_id" object_id
        ++ queryParam "mi_res_id" mi_res_id,
      headers := [("X-IDENTITY-HEADER", identity_header), ("Metadata", "true")] }
  (appServiceNormalize now (http req), [req])

/-- The fixed Service-Fabric error table (imds.py lines 155-159) applied via
`error_mapping.get(code, "invalid_request")`.  A non-string hashable code
falls through to `invalid_request`; an unhashable code (list/dict) raises
`TypeError` as `dict.get` does in Python. -/
def sfMapCode : JVal → Except PyErr String
  | .jstr code =>
    .ok (if code = "SecretHeaderNotFound" then "unauthorized_client"
         else if code = "ManagedIdentityNotFound" then "invalid_client"
         else if code = "ArgumentNullOrEmpty" then "invalid_scope"
         else "invalid_request")
  | .jnull | .jbool _ | .jnum _ => .ok "invalid_request"
  | .jarr _ | .jobj _ => .error (.typeError "unhashable type")

/-- Normalization step of `_obtain_token_on_service_fabric` (imds.py lines
145-163): on a payload with truthy `access_token` and `expires_on` build the
normalized dict (`expires_on - int(time.time())` without an `int(...)`
conversion, and `payload["token_type"]` accessed with brackets); otherwise
map `payload["error"]["code"]` through the fixed table, with the raw body as
`error_description`. -/
def serviceFabricNormalize (now : Int) (resp : HttpResponse) : Except PyErr JVal :=
  match resp.loads with
  | none => .error (.valueError ("Expecting value: " ++ resp.text))
  | some payload => do
    let tok ← payload.dictGet "access_token" .jnull
    let eo ← payload.dictGet "expires_on" .jnull
    if tok.pyTruthy && eo.pyTruthy then do
      let n ← pyNumMinus eo now
      let res ← payload.dictGet "resource" .jnull
      let tt ← payload.getItem "token_type"
      return .jobj [("access_token", tok), ("expires_in", .jnum n),
                    ("resource", res), ("token_type", tt)]
    else do
      let err ← payload.getItem "error"
      let code ← err.getItem "code"
      let mapped ← sfMapCode code
      return .jobj [("error", .jstr mapped),
                    ("error_description", .jstr resp.text)]

/-- `_obtain_token_on_service_fabric` (imds.py lines 130-166): one GET with
the `Secret` header, then normalization.  Takes no identity descriptor. -/
def _obtain_token_on_service_fabric (http : HttpClient) (now : Int)
    (endpoint identity_header server_thumbprint resource : String) :
    Except PyErr JVal × List HttpRequest :=
  let req : HttpRequest :=
    { url := endpoint,
      params := [("api-version", "2019-07-01-preview"), ("resource", resource)],
      headers := [("Secret", identity_header)] }
  (serviceFabricNormalize now (http req), [req])

/-- `_obtain_token` (imds.py lines 24-43), the environment resolver: Service
Fabric when all three variables are present (the identity descriptor is then
only logged, never forwarded), else App Service when endpoint and header are
present, else IMDS.  The resolver itself issues no request; the one GET comes
from the selected adapter. -/
def _obtain_token (http : HttpClient) (env : OsEnviron) (now : Int)
    (resource : String) (client_id object_id mi_res_id : Option String) :
    Except PyErr JVal × List HttpRequest :=
  if env.identity_endpoint.isSome && env.identity_header.isSome
      && env.identity_server_thumbprint.isSome then
    _obtain_token_on_service_fabric http now
      (env.identity_endpoint.getD "") (env.identity_header.getD "")
      (env.identity_server_thumbprint.getD "") resource
  else if env.identity_endpoint.isSome && env.identity_header.isSome then
    _obtain_token_on_app_service http now
      (env.identity_endpoint.getD "") (env.identity_header.getD "")
      resource client_id object_id mi_res_id
  else
    _obtain_token_on_azure_vm http resource client_id object_id mi_res_id

/-- From the spec's words (section 3, for comparison with the adapters'
outputs): a Canonical Token Response success record
`\x7baccess_token, token_type, expires_in, resource\x7d`. -/
def isCanonicalSuccess (v : JVal) : Bool :=
  v.hasKey "access_token" && v.hasKey "token_type"
    && v.hasKey "expires_in" && v.hasKey "resource"

/-- From the spec's words (section 3): a Canonical Token Response error
record `\x7berror, error_description\x7d`, which is "never partially
populated with an access_token". -/
def isCanonicalError (v : JVal) : Bool :=
  v.hasKey "error" && v.hasKey "error_description"
    && !v.hasKey "access_token"

/-! ## The cache collaborator

`msal.TokenCache` is code of this repository that is not under `src/`; only
its caller is.  Its logical read/write contract is modelled from the spec
(sections 3 and 6): `find` returns the entries matching the query, `add`
appends one new entry built from the normalized response. -/

/-- Modelled from the spec: a Cache Entry (spec section 3) — the row shape
of the cache collaborator, restricted to the fields this orchestrator reads:
credential type is fixed to ACCESS_TOKEN, `target` is the resource set,
`secret` the bearer token, `expires_on` the absolute expiry instant and
`refresh_on` the optional proactive-refresh instant. -/
structure CacheEntry where
  client_id : String
  environment : String
  realm : String
  home_account_id : Option String
  target : List String
  secret : String
  token_type : Option String
  expires_on : Int
  refresh_on : Option Int
deriving DecidableEq

/-- Modelled from the spec: the cache collaborator's store (spec section 6);
the orchestrator only reads (`find`) and appends (`add`). -/
structure TokenCache where
  entries : List CacheEntry
deriving DecidableEq

/-- Modelled from the spec: `TokenCache.find(ACCESS_TOKEN, target=[resource],
query=...)` (spec section 6) — the entries whose client_id key, environment,
realm, home_account_id and target match the query. -/
def TokenCache.findAccessTokens (cache : TokenCache) (resource : String)
    (client_id environment realm : String) : List CacheEntry :=
  cache.entries.filter (fun e =>
    e.client_id == client_id && e.environment == environment
      && e.realm == realm && e.home_account_id == none
      && e.target == [resource])

/-- Modelled from the spec: `TokenCache.add` (spec sections 3 and 6) — store
one new Cache Entry built from a normalized successful response: `target` is
the single requested resource, `secret` the access token, `expires_on` the
absolute instant `now + expires_in`; `refresh_on` stays empty (none of the
three backends emits a refresh hint). -/
def TokenCache.add (cache : TokenCache) (now : Int)
    (client_id environment realm resource : String) (response : JVal) :
    TokenCache :=
  let secret := match response.lookupKey "access_token" with
    | some (.jstr s) => s
    | _ => ""
  let token_type := match response.lookupKey "token_type" with
    | some (.jstr s) => some s
    | _ => none
  let expires_on := match response.lookupKey "expires_in" with
    | some (.jnum n) => now + n
    | _ => now
  ⟨cache.entries ++ [{ client_id := client_id, environment := environment,
                       realm := realm, home_account_id := none,
                       target := [resource], secret := secret,
                       token_type := token_type, expires_on := expires_on,
                       refresh_on := none }]⟩

/-! ## The orchestrator (`ManagedIdentity`, imds.py lines 170-251) -/

/-- Python truthiness of an optional string argument (an absent argument and
an empty string are both falsy, as in `filter(bool, ...)` and `a or b`). -/
def optStrTruthy : Option String → Bool
  | none => false
  | some s => !s.isEmpty

/-- Python `a or b` on optional strings: the first truthy operand. -/
def pyOrStr (a : Option String) (b : String) : String :=
  match a with
  | some s => if s.isEmpty then b else s
  | none => b

/-- Python `access_token_from_cache or result` (imds.py line 251): the
fallback dict when present and truthy, else the refresh result. -/
def pyOrJVal (fallback : Option JVal) (result : JVal) : JVal :=
  match fallback with
  | some v => if v.pyTruthy then v else result
  | none => result

/-- The orchestrator's state: the identity descriptor, the optional cache,
and the class attribute `_instance` (`socket.getfqdn()`, an
environment-derived placeholder string). -/
structure ManagedIdentity where
  _instance : String
  client_id : Option String
  object_id : Option String
  mi_res_id : Option String
  token_cache : Option TokenCache

/-- The class attribute `_tenant` (imds.py line 171). -/
def ManagedIdentity._tenant : String := "managed_identity"

/-- `ManagedIdentity.__init__` (imds.py lines 173-196): raise `ValueError`
when more than one of the identity descriptors is truthy, else store the
arguments.  `fqdn` models the environment-derived class attribute
`_instance`; the constructor touches neither the cache nor the network (its
only effect is the stored state). -/
def ManagedIdentity.init (fqdn : String)
    (client_id object_id mi_res_id : Option String)
    (token_cache : Option TokenCache) : Except PyErr ManagedIdentity :=
  if 1 < ([client_id, object_id, mi_res_id].filter optStrTruthy).length then
    .error (.valueError
      "You can use up to one of these: client_id, object_id, mi_res_id")
  else
    .ok ⟨fqdn, client_id, object_id, mi_res_id, token_cache⟩

/-- `client_id_in_cache` (imds.py lines 205-207): the identity descriptor
rendered as one string through Python `or`, with the system-assigned
sentinel as the final default. -/
def ManagedIdentity.clientIdInCache (self : ManagedIdentity) : String :=
  pyOrStr self.client_id (pyOrStr self.object_id
    (pyOrStr self.mi_res_id "SYSTEM_ASSIGNED_MANAGED_IDENTITY"))

/-- The token dict mimicking a real response that the scan builds from a
cache entry (imds.py lines 225-229). -/
def cacheTokenOf (entry : CacheEntry) (now : Int) : JVal :=
  .jobj [("access_token", .jstr entry.secret),
         ("token_type", .jstr (entry.token_type.getD "Bearer")),
         ("expires_in", .jnum (entry.expires_on - now))]

/-- Outcome of the cache scan loop: no usable entry, a fresh entry returned
immediately, or an aging entry kept as the fallback while refreshing. -/
inductive ScanOutcome where
  | miss
  | fresh (tok : JVal)
  | aging (tok : JVal)

/-- The fallback candidate in hand after the scan (`access_token_from_cache`
when the loop exited through `break`, `None` otherwise). -/
def ScanOutcome.fallback : ScanOutcome → Option JVal
  | .aging tok => some tok
  | _ => none

/-- The scan loop of `acquire_token` (imds.py lines 220-232): skip entries
with less than 300 seconds remaining (without deleting them); at the first
remaining entry build the mimic dict, `break` with it as fallback when
`refresh_on` has passed, else `return` it. -/
def scanEntries (now : Int) : List CacheEntry → ScanOutcome
  | [] => .miss
  | entry :: rest =>
    let expires_in := entry.expires_on - now
    if expires_in < 5 * 60 then
      scanEntries now rest
    else
      let tok := cacheTokenOf entry now
      match entry.refresh_on with
      | some r => if r < now then .aging tok else .fresh tok
      | none => .fresh tok

/-- The observable outcome of one `acquire_token` invocation: the returned
value (or the escaping exception), the cache state afterwards, and the list
of transport requests issued. -/
structure AcquireOutcome where
  result : Except PyErr JVal
  cache : Option TokenCache
  calls : List HttpRequest

/-- The code after the scan loop (imds.py lines 233-251): call
`_obtain_token`; on a normal result, write it to the cache and return it when
it carries an `access_token` and a cache is configured, otherwise return the
fallback-or-result; an exception escapes with the cache untouched. -/
def ManagedIdentity.refreshFinish (self : ManagedIdentity) (http : HttpClient)
    (env : OsEnviron) (now : Int) (resource : String)
    (access_token_from_cache : Option JVal) : AcquireOutcome :=
  let reqs := (_obtain_token http env now resource
      self.client_id self.object_id self.mi_res_id).2
  match (_obtain_token http env now resource
      self.client_id self.object_id self.mi_res_id).1 with
  | .error e => ⟨.error e, self.token_cache, reqs⟩
  | .ok result =>
    match self.token_cache with
    | some cache =>
      if result.hasKey "access_token" then
        ⟨.ok result,
         some (cache.add now self.clientIdInCache self._instance
           ManagedIdentity._tenant resource result),
         reqs⟩
      else
        ⟨.ok (pyOrJVal access_token_from_cache result), self.token_cache, reqs⟩
    | none => ⟨.ok (pyOrJVal access_token_from_cache result), none, reqs⟩

/-- `ManagedIdentity.acquire_token` (imds.py lines 198-251): reject an empty
resource; scan the configured cache and return a fresh entry outright; else
refresh through the resolved backend, carrying an aging entry as fallback. -/
def ManagedIdentity.acquire_token (self : ManagedIdentity) (http : HttpClient)
    (env : OsEnviron) (now : Int) (resource : String) : AcquireOutcome :=
  if resource.isEmpty then
    ⟨.error (.valueError
        ("The resource parameter is currently required. "
         ++ "It is only declared as optional in method signature, "
         ++ "in case we want to support scope parameter in the future.")),
     self.token_cache, []⟩
  else
    match self.token_cache with
    | some cache =>
      match scanEntries now (cache.findAccessTokens resource
          self.clientIdInCache self._instance ManagedIdentity._tenant) with
      | .fresh tok => ⟨.ok tok, self.token_cache, []⟩
      | .aging tok => self.refreshFinish http env now resource (some tok)
      | .miss => self.refreshFinish http env now resource none
    | none => self.refreshFinish http env now resource none

/-! ## Concrete fixtures used to instantiate the theorems -/

/-- A cache entry for the system-assigned identity on host `vm.local`, for
resource `R`, expiring at 1400 (so 400 seconds remain at `now = 1000`). -/
def freshEntry : CacheEntry :=
  { client_id := "SYSTEM_ASSIGNED_MANAGED_IDENTITY", environment := "vm.local",
    realm := "managed_identity", home_account_id := none, target := ["R"],
    secret := "SECRET", token_type := none, expires_on := 1400,
    refresh_on := none }

/-- The same entry with `refresh_on = 500`, already in the past at
`now = 1000`. -/
def agingEntry : CacheEntry := { freshEntry with refresh_on := some 500 }

/-- The same entry expiring at 1100 (only 100 seconds remain at
`now = 1000`). -/
def expiredEntry : CacheEntry := { freshEntry with expires_on := 1100 }

/-- An orchestrator on host `vm.local` with a system-assigned identity and
the given cache content. -/
def miWith (entries : List CacheEntry) : ManagedIdentity :=
  ⟨"vm.local", none, none, none, some ⟨entries⟩⟩

/-- A process environment with none of the identity variables (IMDS). -/
def imdsEnv : OsEnviron := ⟨none, none, none⟩

/-- A transport returning a successful IMDS payload. -/
def okHttp : HttpClient := fun _ =>
  ⟨"okbody", some (.jobj [("access_token", .jstr "NEW"),
                          ("expires_in", .jnum 3600)])⟩

/-- A transport returning a well-formed protocol-error payload. -/
def errHttp : HttpClient := fun _ =>
  ⟨"errbody", some (.jobj [("error", .jstr "bad_things")])⟩

/-- A transport returning a body that does not parse. -/
def badHttp : HttpClient := fun _ => ⟨"not json", none⟩

/-! ## Shared lemmas -/

@[simp]
theorem exceptBindOk {ε α β : Type} (a : α) (f : α → Except ε β) :
    (Except.ok a : Except ε α) >>= f = f a := rfl

@[simp]
theorem exceptBindErr {ε α β : Type} (e : ε) (f : α → Except ε β) :
    (Except.error e : Except ε α) >>= f = Except.error e := rfl

@[simp]
theorem exceptPureEq {ε α : Type} (a : α) :
    (pure a : Except ε α) = Except.ok a := rfl

/-- Each backend adapter issues exactly one GET, so `_obtain_token` always
returns a one-element request list. -/
theorem obtain_token_one_call (http : HttpClient) (env : OsEnviron) (now : Int)
    (resource : String) (client_id object_id mi_res_id : Option String) :
    (_obtain_token http env now resource client_id object_id mi_res_id).2.length
      = 1 := by
  unfold _obtain_token _obtain_token_on_service_fabric
    _obtain_token_on_app_service _obtain_token_on_azure_vm
  split
  · rfl
  · split <;> rfl

/-- The post-scheme remainder of `splitScheme` is made of characters of the
input list. -/
theorem splitScheme_snd_subset (cs : List Char) :
    ∀ c ∈ (splitScheme cs).2, c ∈ cs := by
  intro c hc
  unfold splitScheme at hc
  split at hc
  · split at hc
    · exact List.drop_subset _ _ hc
    · exact hc
  · exact hc

/-- The embedded `urlsplit` raises only the Invalid-IPv6 `ValueError`, and
only on an input that contains a square bracket (the netloc is made of input
characters). -/
theorem urlsplit_error_has_bracket (url : String) (e : PyErr)
    (h : urlsplit url = .error e) :
    e = .valueError "Invalid IPv6 URL" ∧
    ∃ c ∈ url.data, c = '[' ∨ c = ']' := by
  simp only [urlsplit] at h
  split at h
  · split at h
    · next hcond =>
      cases h
      refine ⟨rfl, ?_⟩
      rw [Bool.or_eq_true, Bool.and_eq_true, Bool.and_eq_true] at hcond
      have hmem : ∀ c, c ∈ splitNetloc
          ((splitScheme (url.data.filter
            (fun c => !(c == '\t' || c == '\r' || c == '\n')))).2.drop 2) →
          c ∈ url.data := by
        intro c hc
        simp only [splitNetloc] at hc
        exact (List.mem_filter.mp (splitScheme_snd_subset _ c
          (List.drop_subset _ _ (List.takeWhile_subset _ hc)))).1
      rcases hcond with ⟨hopen, _⟩ | ⟨hclose, _⟩
      · obtain ⟨c, hc, hcb⟩ := List.any_eq_true.mp hopen
        exact ⟨c, hmem c hc, Or.inl (by simpa using hcb)⟩
      · obtain ⟨c, hc, hcb⟩ := List.any_eq_true.mp hclose
        exact ⟨c, hmem c hc, Or.inr (by simpa using hcb)⟩
    · simp at h
  · simp at h

/-! ## C9 — the resource/scope mapper -/

/-- C9 counterexample: the claim says `_scope_to_resource` never fails, but
on the input `"http://["` the underlying `urlparse` raises
`ValueError("Invalid IPv6 URL")` (a netloc with a `[` and no `]`, a check
present in every CPython since 2.7), and `_scope_to_resource` has no
handler, so the call fails. -/
theorem scope_to_resource_raises_on_bad_ipv6 :
    _scope_to_resource "http://[" = .error (.valueError "Invalid IPv6 URL") := by
  rfl

/-- C9 (amended): `_scope_to_resource` is not total — it has no exception
handler, so every `ValueError` of `urlparse`'s netloc validation escapes (the
counterexample shows the mismatched-bracket one; maintained interpreters
also raise on bracketed non-IPv6 hosts and NFKC-unstable netlocs, raising
paths outside the embedded fragment).  On inputs made of ASCII characters
with no square bracket — where no netloc validation of any supported
CPython can fire, and where the embedding is exact for CPython ≥ 3.11 — the
mapper never fails and returns `scheme ++ "://" ++ netloc` when the parsed
scheme is non-empty, and the input unchanged when it is empty. -/
theorem scope_to_resource_amended :
    (∀ scope : String,
      (∀ c ∈ scope.data, c.toNat ≤ 127) →
      (∀ c ∈ scope.data, c ≠ '[' ∧ c ≠ ']') →
      ∃ u, urlsplit scope = .ok u ∧
        ((u.scheme.isEmpty = true ∧ _scope_to_resource scope = .ok scope) ∨
         (u.scheme.isEmpty = false ∧
           _scope_to_resource scope = .ok (u.scheme ++ "://" ++ u.netloc)))) ∧
    (∀ (scope : String) (e : PyErr),
      urlsplit scope = .error e → _scope_to_resource scope = .error e) := by
  constructor
  · intro scope hascii hnb
    cases h : urlsplit scope with
    | error e =>
      obtain ⟨_, c, hc, hbr⟩ := urlsplit_error_has_bracket scope e h
      rcases hbr with rfl | rfl
      · exact absurd rfl (hnb _ hc).1
      · exact absurd rfl (hnb _ hc).2
    | ok u =>
      refine ⟨u, rfl, ?_⟩
      unfold _scope_to_resource
      rw [h]
      by_cases hs : u.scheme.isEmpty = true
      · exact Or.inl ⟨hs, by simp [hs]⟩
      · have hs2 : u.scheme.isEmpty = false := by simpa using hs
        exact Or.inr ⟨hs2, by simp [hs2]⟩
  · intro scope e h
    unfold _scope_to_resource
    rw [h]
    rfl

/-- C9 witness (for the amended claim): the ASCII, bracket-free scope
`https://management.azure.com/.default` is mapped without failing. -/
theorem scope_to_resource_amended_witness :
    ∃ u, urlsplit "https://management.azure.com/.default" = .ok u ∧
      ((u.scheme.isEmpty = true ∧
        _scope_to_resource "https://management.azure.com/.default"
          = .ok "https://management.azure.com/.default") ∨
       (u.scheme.isEmpty = false ∧
        _scope_to_resource "https://management.azure.com/.default"
          = .ok (u.scheme ++ "://" ++ u.netloc))) :=
  scope_to_resource_amended.1 "https://management.azure.com/.default"
    (by decide) (by decide)

/-! ## C7 — Service Fabric error normalization -/

/-- C7: for every well-formed Service-Fabric payload lacking an
`access_token` (a dict whose `error.code` is a string), the adapter returns
the error record whose `error` is the code mapped through the fixed table
(`SecretHeaderNotFound→unauthorized_client`,
`ManagedIdentityNotFound→invalid_client`, `ArgumentNullOrEmpty→invalid_scope`,
anything else `→invalid_request`) and whose `error_description` is the raw
response body. -/
theorem sf_error_normalization (now : Int) (resp : HttpResponse)
    (fields errFields : List (String × JVal)) (code : String)
    (hload : resp.loads = some (.jobj fields))
    (hat : fields.lookup "access_token" = none)
    (herr : fields.lookup "error" = some (.jobj errFields))
    (hcode : errFields.lookup "code" = some (.jstr code)) :
    serviceFabricNormalize now resp =
      .ok (.jobj [("error", .jstr
            (if code = "SecretHeaderNotFound" then "unauthorized_client"
             else if code = "ManagedIdentityNotFound" then "invalid_client"
             else if code = "ArgumentNullOrEmpty" then "invalid_scope"
             else "invalid_request")),
          ("error_description", .jstr resp.text)]) := by
  unfold serviceFabricNormalize
  rw [hload]
  simp [JVal.dictGet, JVal.getItem, JVal.pyTruthy, sfMapCode,
    hat, herr, hcode]

/-- C7 witness: the spec scenario — payload
`\x7b"error": \x7b"code": "ManagedIdentityNotFound"\x7d\x7d` with raw body
`RAWBODY` yields `error = invalid_client` and the raw body as the
description. -/
theorem sf_error_normalization_witness :
    serviceFabricNormalize 0
        ⟨"RAWBODY",
         some (.jobj [("error", .jobj [("code", .jstr "ManagedIdentityNotFound")])])⟩
      = .ok (.jobj [("error", .jstr "invalid_client"),
                    ("error_description", .jstr "RAWBODY")]) := by
  have h := sf_error_normalization 0
    ⟨"RAWBODY",
     some (.jobj [("error", .jobj [("code", .jstr "ManagedIdentityNotFound")])])⟩
    [("error", .jobj [("code", .jstr "ManagedIdentityNotFound")])]
    [("code", .jstr "ManagedIdentityNotFound")] "ManagedIdentityNotFound"
    rfl rfl rfl rfl
  simpa using h

/-! ## C6 — Canonical Token Response exclusivity -/

/-- C6 counterexample: the IMDS adapter returns a non-success payload as-is
(imds.py line 75).  For the well-formed payload
`\x7b"error": "server_error", "error_description": "d",
"access_token": "T"\x7d` (an `access_token` without `expires_in`), the value
returned is neither a canonical success record nor a canonical error record —
it is an error record partially populated with an `access_token`, which the
claim says never happens. -/
theorem canonical_exclusivity_fails_for_imds :
    (_obtain_token_on_azure_vm
        (fun _ => ⟨"body",
          some (.jobj [("error", .jstr "server_error"),
                       ("error_description", .jstr "d"),
                       ("access_token", .jstr "T")])⟩)
        "R" none none none).1
      = .ok (.jobj [("error", .jstr "server_error"),
                    ("error_description", .jstr "d"),
                    ("access_token", .jstr "T")]) ∧
    isCanonicalSuccess (.jobj [("error", .jstr "server_error"),
                    ("error_description", .jstr "d"),
                    ("access_token", .jstr "T")]) = false ∧
    isCanonicalError (.jobj [("error", .jstr "server_error"),
                    ("error_description", .jstr "d"),
                    ("access_token", .jstr "T")]) = false := by
  refine ⟨rfl, rfl, rfl⟩

/-- C6 (amended): the App-Service and Service-Fabric adapters return exactly
one of the two canonical shapes for every payload; the IMDS adapter does so
only on its normalized success branch — any other parsed payload is returned
verbatim (and may, as the counterexample shows, mix the shapes). -/
theorem canonical_exclusivity_amended (now : Int) (resp : HttpResponse)
    (v : JVal) :
    (appServiceNormalize now resp = .ok v →
      isCanonicalSuccess v = true ∨ isCanonicalError v = true) ∧
    (serviceFabricNormalize now resp = .ok v →
      isCanonicalSuccess v = true ∨ isCanonicalError v = true) ∧
    (imdsNormalize resp = .ok v →
      isCanonicalSuccess v = true ∨ resp.loads = some v) := by
  refine ⟨?_, ?_, ?_⟩
  · intro h
    unfold appServiceNormalize at h
    cases hl : resp.loads with
    | none => rw [hl] at h; cases h
    | some payload =>
      rw [hl] at h
      cases payload <;> simp [JVal.dictGet] at h
      case jobj fs =>
        split at h
        · cases hpi : pyInt ((fs.lookup "expires_on").getD .jnull) with
          | error e => rw [hpi] at h; cases h
          | ok n =>
            rw [hpi] at h
            simp at h
            left
            rw [← h]
            rfl
        · simp at h
          right
          rw [← h]
          rfl
  · intro h
    unfold serviceFabricNormalize at h
    cases hl : resp.loads with
    | none => rw [hl] at h; cases h
    | some payload =>
      rw [hl] at h
      cases payload <;> simp [JVal.dictGet] at h
      case jobj fs =>
        split at h
        · cases hm : pyNumMinus ((fs.lookup "expires_on").getD .jnull) now with
          | error e => rw [hm] at h; cases h
          | ok n =>
            rw [hm] at h
            simp [JVal.getItem] at h
            cases htt : fs.lookup "token_type" with
            | none => rw [htt] at h; cases h
            | some tt =>
              rw [htt] at h
              simp at h
              left
              rw [← h]
              rfl
        · simp [JVal.getItem] at h
          cases he : fs.lookup "error" with
          | none => rw [he] at h; cases h
          | some err =>
            rw [he] at h
            simp at h
            cases err <;> simp [JVal.getItem] at h
            case jobj efs =>
              cases hc : efs.lookup "code" with
              | none => rw [hc] at h; cases h
              | some code =>
                rw [hc] at h
                simp at h
                cases hmc : sfMapCode code with
                | error e => rw [hmc] at h; cases h
                | ok m =>
                  rw [hmc] at h
                  simp at h
                  right
                  rw [← h]
                  rfl
  · intro h
    unfold imdsNormalize at h
    cases hl : resp.loads with
    | none => rw [hl] at h; cases h
    | some payload =>
      rw [hl] at h
      cases payload <;> simp [JVal.dictGet] at h
      case jobj fs =>
        split at h
        · cases hpi : pyInt ((fs.lookup "expires_in").getD .jnull) with
          | error e => rw [hpi] at h; cases h
          | ok n =>
            rw [hpi] at h
            simp at h
            left
            rw [← h]
            rfl
        · simp at h
          right
          rw [← h]

/-! ## C5 — the environment resolver -/

/-- C5: exactly one backend is selected, in fixed priority order (Service
Fabric when all three variables are present; else App Service when endpoint
and header are present; else IMDS); resolution itself issues no request (the
single GET of every invocation comes from the selected adapter); and under
Service Fabric the identity descriptor is ignored — the outcome is the same
as with no descriptor, and the single request carries only the fixed
`api-version` and `resource` parameters. -/
theorem environment_resolver (http : HttpClient) (env : OsEnviron) (now : Int)
    (resource : String) (client_id object_id mi_res_id : Option String) :
    (env.identity_endpoint.isSome ∧ env.identity_header.isSome
        ∧ env.identity_server_thumbprint.isSome →
      _obtain_token http env now resource client_id object_id mi_res_id
          = _obtain_token_on_service_fabric http now
              (env.identity_endpoint.getD "") (env.identity_header.getD "")
              (env.identity_server_thumbprint.getD "") resource ∧
      _obtain_token http env now resource client_id object_id mi_res_id
          = _obtain_token http env now resource none none none ∧
      (_obtain_token http env now resource client_id object_id mi_res_id).2
          = [{ url := env.identity_endpoint.getD "",
               params := [("api-version", "2019-07-01-preview"),
                          ("resource", resource)],
               headers := [("Secret", env.identity_header.getD "")] }]) ∧
    (env.identity_endpoint.isSome ∧ env.identity_header.isSome
        ∧ ¬env.identity_server_thumbprint.isSome →
      _obtain_token http env now resource client_id object_id mi_res_id
          = _obtain_token_on_app_service http now
              (env.identity_endpoint.getD "") (env.identity_header.getD "")
              resource client_id object_id mi_res_id) ∧
    (¬(env.identity_endpoint.isSome ∧ env.identity_header.isSome) →
      _obtain_token http env now resource client_id object_id mi_res_id
          = _obtain_token_on_azure_vm http resource
              client_id object_id mi_res_id) ∧
    (_obtain_token http env now resource client_id object_id mi_res_id).2.length
        = 1 := by
  refine ⟨?_, ?_, ?_, obtain_token_one_call http env now resource
    client_id object_id mi_res_id⟩
  · rintro ⟨h1, h2, h3⟩
    refine ⟨?_, ?_, ?_⟩ <;>
      simp [_obtain_token, _obtain_token_on_service_fabric, h1, h2, h3]
  · rintro ⟨h1, h2, h3⟩
    simp [_obtain_token, h1, h2, h3]
  · intro h
    rw [Classical.not_and_iff_or_not_not] at h
    unfold _obtain_token
    rcases h with h | h <;> simp [h]

/-- C5 witness: with all three variables present, the Service-Fabric adapter
is selected, a supplied `client_id` changes nothing, and the single request
carries no identity-descriptor parameter. -/
theorem environment_resolver_witness :
    _obtain_token (fun _ => ⟨"b", none⟩) ⟨some "EP", some "H", some "TP"⟩ 7
        "R" (some "cid") none none
      = _obtain_token (fun _ => ⟨"b", none⟩) ⟨some "EP", some "H", some "TP"⟩ 7
        "R" none none none ∧
    (_obtain_token (fun _ => ⟨"b", none⟩) ⟨some "EP", some "H", some "TP"⟩ 7
        "R" (some "cid") none none).2
      = [{ url := "EP",
           params := [("api-version", "2019-07-01-preview"), ("resource", "R")],
           headers := [("Secret", "H")] }] := by
  have h := (environment_resolver (fun _ => ⟨"b", none⟩)
    ⟨some "EP", some "H", some "TP"⟩ 7 "R" (some "cid") none none).1
    ⟨by decide, by decide, by decide⟩
  exact ⟨h.2.1, h.2.2⟩

/-! ## C8 — invalid arguments fail before any I/O -/

/-- C8: constructing an orchestrator with more than one identity descriptor
set fails with `ValueError` — and with at most one it succeeds, so the
failure is exactly the over-specification (the constructor performs no cache
or transport action in either case: its only effect is the returned state);
and `acquire_token` with an empty/absent resource returns the
invalid-argument `ValueError` with the cache untouched and zero transport
calls. -/
theorem invalid_arguments_fail_fast (fqdn : String)
    (client_id object_id mi_res_id : Option String)
    (token_cache : Option TokenCache) (mi : ManagedIdentity)
    (http : HttpClient) (env : OsEnviron) (now : Int) :
    ((1 < ([client_id, object_id, mi_res_id].filter optStrTruthy).length ↔
      ManagedIdentity.init fqdn client_id object_id mi_res_id token_cache
        = .error (.valueError
            "You can use up to one of these: client_id, object_id, mi_res_id"))) ∧
    mi.acquire_token http env now "" =
      ⟨.error (.valueError
          ("The resource parameter is currently required. "
           ++ "It is only declared as optional in method signature, "
           ++ "in case we want to support scope parameter in the future.")),
       mi.token_cache, []⟩ := by
  constructor
  · constructor
    · intro h
      simp [ManagedIdentity.init, h]
    · intro h
      by_contra hc
      simp [ManagedIdentity.init, hc] at h
  · rfl

/-! ## C2 — fresh cache hit -/

/-- C2: when the matching entries are exactly one entry with at least 300
seconds remaining and no `refresh_on` earlier than now, `acquire_token`
returns that entry's token (its `access_token` is the entry's secret) with
zero transport calls and the cache unchanged. -/
theorem fresh_cache_hit (mi : ManagedIdentity) (http : HttpClient)
    (env : OsEnviron) (now : Int) (resource : String) (c : TokenCache)
    (e : CacheEntry)
    (hres : resource.isEmpty = false)
    (hcache : mi.token_cache = some c)
    (hfind : c.findAccessTokens resource mi.clientIdInCache mi._instance
        ManagedIdentity._tenant = [e])
    (hrem : 300 ≤ e.expires_on - now)
    (hron : ∀ r, e.refresh_on = some r → ¬ r < now) :
    mi.acquire_token http env now resource
        = ⟨.ok (cacheTokenOf e now), some c, []⟩ ∧
    (cacheTokenOf e now).lookupKey "access_token" = some (.jstr e.secret) := by
  constructor
  · unfold ManagedIdentity.acquire_token
    rw [hcache]
    have hne : ¬ resource.isEmpty = true := by simp [hres]
    rw [if_neg hne]
    dsimp only
    rw [hfind]
    have hlt : ¬ (e.expires_on - now < 300) := by omega
    cases hr : e.refresh_on with
    | none => simp [scanEntries, hlt, hr]
    | some r =>
      have hnr := hron r hr
      simp [scanEntries, hlt, hr, hnr]
  · rfl

/-- C2 witness: the fixture cache holding exactly `freshEntry` returns its
secret with zero calls and an unchanged cache. -/
theorem fresh_cache_hit_witness :
    (miWith [freshEntry]).acquire_token okHttp imdsEnv 1000 "R"
        = ⟨.ok (cacheTokenOf freshEntry 1000), some ⟨[freshEntry]⟩, []⟩ ∧
    (cacheTokenOf freshEntry 1000).lookupKey "access_token"
        = some (.jstr "SECRET") :=
  fresh_cache_hit (miWith [freshEntry]) okHttp imdsEnv 1000 "R"
    ⟨[freshEntry]⟩ freshEntry rfl rfl (by decide) (by decide)
    (fun r h => by simp [freshEntry] at h)

/-- The request list of the post-scan code is always exactly the one issued
by `_obtain_token`, regardless of outcome. -/
theorem refreshFinish_calls (self : ManagedIdentity) (http : HttpClient)
    (env : OsEnviron) (now : Int) (resource : String) (fb : Option JVal) :
    (self.refreshFinish http env now resource fb).calls
      = (_obtain_token http env now resource
          self.client_id self.object_id self.mi_res_id).2 := by
  unfold ManagedIdentity.refreshFinish
  cases ho : (_obtain_token http env now resource
      self.client_id self.object_id self.mi_res_id).1 with
  | error err => simp [ho]
  | ok res =>
    cases hc : self.token_cache with
    | none => simp [ho, hc]
    | some c =>
      simp only [ho, hc]
      split <;> rfl

/-! ## C1 — fallback law -/

/-- C1: when the matching entries are exactly one entry with at least 300
seconds remaining whose `refresh_on` has passed, `acquire_token` performs
exactly one transport call; and whenever that call yields a well-formed
result without an `access_token`, the cached entry's token (the fallback
candidate recorded during the scan) is returned instead of the error
record. -/
theorem fallback_law (mi : ManagedIdentity) (http : HttpClient)
    (env : OsEnviron) (now : Int) (resource : String) (c : TokenCache)
    (e : CacheEntry) (r : Int)
    (hres : resource.isEmpty = false)
    (hcache : mi.token_cache = some c)
    (hfind : c.findAccessTokens resource mi.clientIdInCache mi._instance
        ManagedIdentity._tenant = [e])
    (hrem : 300 ≤ e.expires_on - now)
    (hron : e.refresh_on = some r)
    (hr : r < now) :
    (mi.acquire_token http env now resource).calls.length = 1 ∧
    (∀ res, (_obtain_token http env now resource
          mi.client_id mi.object_id mi.mi_res_id).1 = .ok res →
      res.hasKey "access_token" = false →
      (mi.acquire_token http env now resource).result
        = .ok (cacheTokenOf e now)) := by
  have hacq : mi.acquire_token http env now resource
      = mi.refreshFinish http env now resource (some (cacheTokenOf e now)) := by
    unfold ManagedIdentity.acquire_token
    rw [hcache]
    rw [if_neg (by simp [hres])]
    dsimp only
    rw [hfind]
    have hlt : ¬ (e.expires_on - now < 300) := by omega
    simp [scanEntries, hlt, hron, hr]
  constructor
  · rw [hacq, refreshFinish_calls]
    exact obtain_token_one_call http env now resource
      mi.client_id mi.object_id mi.mi_res_id
  · intro res ho hk
    rw [hacq]
    unfold ManagedIdentity.refreshFinish
    simp [ho, hcache, hk, pyOrJVal, cacheTokenOf, JVal.pyTruthy]

/-- C1 witness: the fixture cache holding exactly `agingEntry`
(`refresh_on = 500 < 1000 = now`, 400 seconds remaining) with a transport
answering a well-formed error performs one call and returns the cached
token. -/
theorem fallback_law_witness :
    ((miWith [agingEntry]).acquire_token errHttp imdsEnv 1000 "R").calls.length
        = 1 ∧
    ((miWith [agingEntry]).acquire_token errHttp imdsEnv 1000 "R").result
        = .ok (cacheTokenOf agingEntry 1000) := by
  have h := fallback_law (miWith [agingEntry]) errHttp imdsEnv 1000 "R"
    ⟨[agingEntry]⟩ agingEntry 500 rfl rfl rfl (by decide) rfl (by decide)
  exact ⟨h.1, h.2 (.jobj [("error", .jstr "bad_things")]) rfl rfl⟩

/-- Any token the scan loop yields (for immediate return or as the aging
fallback) is built from a member entry with at least 300 seconds
remaining. -/
theorem scanEntries_yield (now : Int) :
    ∀ (l : List CacheEntry) (tok : JVal),
      scanEntries now l = .fresh tok ∨ scanEntries now l = .aging tok →
      ∃ e ∈ l, 300 ≤ e.expires_on - now ∧ tok = cacheTokenOf e now := by
  intro l
  induction l with
  | nil =>
    intro tok h
    rcases h with h | h <;> simp [scanEntries] at h
  | cons e rest ih =>
    intro tok h
    rw [show scanEntries now (e :: rest)
        = (if e.expires_on - now < 5 * 60 then scanEntries now rest
           else match e.refresh_on with
             | some r => if r < now then .aging (cacheTokenOf e now)
                         else .fresh (cacheTokenOf e now)
             | none => .fresh (cacheTokenOf e now)) from rfl] at h
    by_cases hlt : e.expires_on - now < 5 * 60
    · rw [if_pos hlt] at h
      obtain ⟨e2, hmem, hrem2, htok⟩ := ih tok h
      exact ⟨e2, List.mem_cons_of_mem _ hmem, hrem2, htok⟩
    · rw [if_neg hlt] at h
      have hrem : 300 ≤ e.expires_on - now := by omega
      cases hr : e.refresh_on with
      | none =>
        rw [hr] at h
        dsimp only at h
        rcases h with h | h
        · cases h; exact ⟨e, List.mem_cons_self e rest, hrem, rfl⟩
        · cases h
      | some r =>
        rw [hr] at h
        dsimp only at h
        by_cases hrn : r < now
        · rw [if_pos hrn] at h
          rcases h with h | h
          · cases h
          · cases h; exact ⟨e, List.mem_cons_self e rest, hrem, rfl⟩
        · rw [if_neg hrn] at h
          rcases h with h | h
          · cases h; exact ⟨e, List.mem_cons_self e rest, hrem, rfl⟩
          · cases h

/-- A scan over entries that all have less than 300 seconds remaining is a
miss: every such entry is skipped. -/
theorem scanEntries_all_expired (now : Int) (l : List CacheEntry)
    (h : ∀ e ∈ l, e.expires_on - now < 300) :
    scanEntries now l = .miss := by
  induction l with
  | nil => rfl
  | cons e rest ih =>
    rw [show scanEntries now (e :: rest)
        = (if e.expires_on - now < 5 * 60 then scanEntries now rest
           else match e.refresh_on with
             | some r => if r < now then .aging (cacheTokenOf e now)
                         else .fresh (cacheTokenOf e now)
             | none => .fresh (cacheTokenOf e now)) from rfl]
    rw [if_pos (by have := h e (List.mem_cons_self e rest); omega)]
    exact ih (fun e2 he2 => h e2 (List.mem_cons_of_mem _ he2))

/-- The post-scan code either leaves the cache untouched or replaces it with
the same cache plus one appended entry. -/
theorem refreshFinish_cache (self : ManagedIdentity) (http : HttpClient)
    (env : OsEnviron) (now : Int) (resource : String) (fb : Option JVal) :
    (self.refreshFinish http env now resource fb).cache = self.token_cache ∨
    ∃ c res, self.token_cache = some c ∧
      (self.refreshFinish http env now resource fb).cache
        = some (c.add now self.clientIdInCache self._instance
            ManagedIdentity._tenant resource res) := by
  unfold ManagedIdentity.refreshFinish
  cases ho : (_obtain_token http env now resource
      self.client_id self.object_id self.mi_res_id).1 with
  | error err => left; simp [ho]
  | ok res =>
    cases hc : self.token_cache with
    | none => left; simp [ho, hc]
    | some c =>
      simp only [ho, hc]
      split
      · right; exact ⟨c, res, rfl, rfl⟩
      · left; rfl

/-! ## C3 — hard expiry -/

/-- C3: no entry with less than 300 seconds remaining is ever returned (any
token the scan yields comes from an entry with at least 300 seconds left);
expired entries are skipped, not deleted; and when every matching entry is
expired a transport call is always performed, regardless of `refresh_on`,
with the old cache entries all still present afterwards. -/
theorem hard_expiry (now : Int) :
    (∀ (l : List CacheEntry) (tok : JVal),
      scanEntries now l = .fresh tok ∨ scanEntries now l = .aging tok →
      ∃ e ∈ l, 300 ≤ e.expires_on - now ∧ tok = cacheTokenOf e now) ∧
    (∀ (mi : ManagedIdentity) (http : HttpClient) (env : OsEnviron)
        (resource : String) (c : TokenCache),
      resource.isEmpty = false → mi.token_cache = some c →
      (∀ e ∈ c.findAccessTokens resource mi.clientIdInCache mi._instance
          ManagedIdentity._tenant, e.expires_on - now < 300) →
      (mi.acquire_token http env now resource).calls.length = 1 ∧
      ∃ c2 tail, (mi.acquire_token http env now resource).cache = some c2 ∧
        c2.entries = c.entries ++ tail) := by
  constructor
  · exact scanEntries_yield now
  · intro mi http env resource c hres hcache hall
    have hacq : mi.acquire_token http env now resource
        = mi.refreshFinish http env now resource none := by
      unfold ManagedIdentity.acquire_token
      rw [hcache, if_neg (by simp [hres])]
      dsimp only
      rw [scanEntries_all_expired now _ hall]
    constructor
    · rw [hacq, refreshFinish_calls]
      exact obtain_token_one_call http env now resource
        mi.client_id mi.object_id mi.mi_res_id
    · rw [hacq]
      rcases refreshFinish_cache mi http env now resource none with
        h | ⟨c0, res, hc0, h⟩
      · rw [h, hcache]
        exact ⟨c, [], rfl, by simp⟩
      · rw [hcache] at hc0
        cases hc0
        rw [h]
        exact ⟨_, _, rfl, rfl⟩

/-- C3 witness: the fixture cache holding only `expiredEntry` (100 seconds
remaining at `now = 1000`) forces one transport call and keeps the expired
entry in the cache. -/
theorem hard_expiry_witness :
    ((miWith [expiredEntry]).acquire_token okHttp imdsEnv 1000 "R").calls.length
        = 1 ∧
    ∃ c2 tail,
      ((miWith [expiredEntry]).acquire_token okHttp imdsEnv 1000 "R").cache
          = some c2 ∧
      c2.entries = [expiredEntry] ++ tail :=
  (hard_expiry 1000).2 (miWith [expiredEntry]) okHttp imdsEnv "R"
    ⟨[expiredEntry]⟩ rfl rfl (by decide)

/-- Every invocation of `acquire_token` either returns without any effect
(the invalid-argument error or a fresh cache hit, with the cache unchanged
and no request), or runs the post-scan refresh code. -/
theorem acquire_token_cases (mi : ManagedIdentity) (http : HttpClient)
    (env : OsEnviron) (now : Int) (resource : String) :
    (∃ out, mi.acquire_token http env now resource
        = ⟨out, mi.token_cache, []⟩) ∨
    (∃ fb, mi.acquire_token http env now resource
        = mi.refreshFinish http env now resource fb) := by
  unfold ManagedIdentity.acquire_token
  by_cases hres : resource.isEmpty = true
  · rw [if_pos hres]
    exact .inl ⟨_, rfl⟩
  · rw [if_neg hres]
    cases hc : mi.token_cache with
    | none => exact .inr ⟨none, rfl⟩
    | some c =>
      dsimp only
      cases hscan : scanEntries now (c.findAccessTokens resource
          mi.clientIdInCache mi._instance ManagedIdentity._tenant) with
      | fresh tok => exact .inl ⟨.ok tok, rfl⟩
      | aging tok => exact .inr ⟨some tok, rfl⟩
      | miss => exact .inr ⟨none, rfl⟩

/-! ## C4 — side-effect bound -/

/-- C4: every invocation performs at most one GET and at most one cache
write, never deletes an entry (the old entries survive as a prefix, a
missing cache stays missing), and for an empty cache with a successful
backend response it returns the normalized token and writes exactly one
entry whose target set is the requested resource. -/
theorem side_effect_bound (mi : ManagedIdentity) (http : HttpClient)
    (env : OsEnviron) (now : Int) (resource : String) :
    (mi.acquire_token http env now resource).calls.length ≤ 1 ∧
    (mi.token_cache = none →
      (mi.acquire_token http env now resource).cache = none) ∧
    (∀ c, mi.token_cache = some c →
      ∃ c2 tail, (mi.acquire_token http env now resource).cache = some c2 ∧
        c2.entries = c.entries ++ tail ∧ tail.length ≤ 1) ∧
    (∀ res, mi.token_cache = some ⟨[]⟩ → resource.isEmpty = false →
      (_obtain_token http env now resource
          mi.client_id mi.object_id mi.mi_res_id).1 = .ok res →
      res.hasKey "access_token" = true →
      (mi.acquire_token http env now resource).result = .ok res ∧
      ∃ entry, (mi.acquire_token http env now resource).cache
          = some ⟨[entry]⟩ ∧ entry.target = [resource]) := by
  refine ⟨?_, ?_, ?_, ?_⟩
  · rcases acquire_token_cases mi http env now resource with ⟨out, h⟩ | ⟨fb, h⟩
    · simp [h]
    · rw [h, refreshFinish_calls, obtain_token_one_call]
  · intro hn
    rcases acquire_token_cases mi http env now resource with ⟨out, h⟩ | ⟨fb, h⟩
    · rw [h]; exact hn
    · rw [h]
      rcases refreshFinish_cache mi http env now resource fb with
        hcc | ⟨c0, res, hc0, hcc⟩
      · rw [hcc]; exact hn
      · rw [hn] at hc0; cases hc0
  · intro c hc
    rcases acquire_token_cases mi http env now resource with ⟨out, h⟩ | ⟨fb, h⟩
    · rw [h, hc]
      exact ⟨c, [], rfl, by simp, by simp⟩
    · rw [h]
      rcases refreshFinish_cache mi http env now resource fb with
        hcc | ⟨c0, res, hc0, hcc⟩
      · rw [hcc, hc]
        exact ⟨c, [], rfl, by simp, by simp⟩
      · rw [hc] at hc0
        cases hc0
        rw [hcc]
        exact ⟨_, _, rfl, rfl, by simp⟩
  · intro res hc hres ho hk
    have hacq : mi.acquire_token http env now resource
        = mi.refreshFinish http env now resource none := by
      unfold ManagedIdentity.acquire_token
      rw [hc, if_neg (by simp [hres])]
      dsimp only
      rfl
    rw [hacq]
    unfold ManagedIdentity.refreshFinish
    rw [ho]
    dsimp only
    rw [hc]
    dsimp only
    rw [if_pos hk]
    refine ⟨rfl,
      ⟨{ client_id := mi.clientIdInCache, environment := mi._instance,
         realm := ManagedIdentity._tenant, home_account_id := none,
         target := [resource],
         secret := match res.lookupKey "access_token" with
           | some (.jstr s) => s
           | _ => "",
         token_type := match res.lookupKey "token_type" with
           | some (.jstr s) => some s
           | _ => none,
         expires_on := match res.lookupKey "expires_in" with
           | some (.jnum n) => now + n
           | _ => now,
         refresh_on := none }, ?_, rfl⟩⟩
    simp [TokenCache.add]

/-- C4 witness: with an empty cache and a transport returning a successful
IMDS payload, the normalized token is returned and one entry targeting `R`
is written. -/
theorem side_effect_bound_witness :
    ((miWith []).acquire_token okHttp imdsEnv 1000 "R").result
        = .ok (.jobj [("access_token", .jstr "NEW"), ("expires_in", .jnum 3600),
                      ("resource", .jnull), ("token_type", .jstr "Bearer")]) ∧
    ∃ entry, ((miWith []).acquire_token okHttp imdsEnv 1000 "R").cache
        = some ⟨[entry]⟩ ∧ entry.target = ["R"] :=
  (side_effect_bound (miWith []) okHttp imdsEnv 1000 "R").2.2.2
    (.jobj [("access_token", .jstr "NEW"), ("expires_in", .jnum 3600),
            ("resource", .jnull), ("token_type", .jstr "Bearer")])
    rfl rfl rfl rfl

/-! ## C10 — parse errors propagate past the fallback -/

/-- C10: a body that does not parse makes every adapter raise the
`json.loads` `ValueError`; and any exception from the refresh escapes
`acquire_token` unchanged — even when the scan recorded a fresh fallback
candidate (an aging entry) — with no cache write on that path. -/
theorem parse_error_propagates (now : Int) :
    (∀ resp : HttpResponse, resp.loads = none →
      imdsNormalize resp
          = .error (.valueError ("Expecting value: " ++ resp.text)) ∧
      appServiceNormalize now resp
          = .error (.valueError ("Expecting value: " ++ resp.text)) ∧
      serviceFabricNormalize now resp
          = .error (.valueError ("Expecting value: " ++ resp.text))) ∧
    (∀ (mi : ManagedIdentity) (http : HttpClient) (env : OsEnviron)
        (resource : String) (c : TokenCache) (e : CacheEntry) (r : Int)
        (err : PyErr),
      resource.isEmpty = false → mi.token_cache = some c →
      c.findAccessTokens resource mi.clientIdInCache mi._instance
          ManagedIdentity._tenant = [e] →
      300 ≤ e.expires_on - now → e.refresh_on = some r → r < now →
      (_obtain_token http env now resource
          mi.client_id mi.object_id mi.mi_res_id).1 = .error err →
      (mi.acquire_token http env now resource).result = .error err ∧
      (mi.acquire_token http env now resource).cache = some c) := by
  constructor
  · intro resp h
    refine ⟨?_, ?_, ?_⟩
    · unfold imdsNormalize
      rw [h]
    · unfold appServiceNormalize
      rw [h]
    · unfold serviceFabricNormalize
      rw [h]
  · intro mi http env resource c e r err hres hcache hfind hrem hron hr ho
    have hacq : mi.acquire_token http env now resource
        = mi.refreshFinish http env now resource (some (cacheTokenOf e now)) := by
      unfold ManagedIdentity.acquire_token
      rw [hcache, if_neg (by simp [hres])]
      dsimp only
      rw [hfind]
      have hlt : ¬ (e.expires_on - now < 300) := by omega
      simp [scanEntries, hlt, hron, hr]
    rw [hacq]
    unfold ManagedIdentity.refreshFinish
    rw [ho]
    exact ⟨rfl, hcache⟩

/-- C10 witness: with the cache holding `agingEntry` (fallback in hand) and
a transport whose body does not parse, the `ValueError` escapes and the
cache is unchanged. -/
theorem parse_error_propagates_witness :
    ((miWith [agingEntry]).acquire_token badHttp imdsEnv 1000 "R").result
        = .error (.valueError "Expecting value: not json") ∧
    ((miWith [agingEntry]).acquire_token badHttp imdsEnv 1000 "R").cache
        = some ⟨[agingEntry]⟩ :=
  (parse_error_propagates 1000).2 (miWith [agingEntry]) badHttp imdsEnv "R"
    ⟨[agingEntry]⟩ agingEntry 500 (.valueError "Expecting value: not json")
    rfl rfl rfl (by decide) rfl (by decide) rfl

/-- C6 witness (for the amended claim): a successful App-Service payload
normalizes to a canonical success record. -/
theorem canonical_exclusivity_amended_witness :
    isCanonicalSuccess (.jobj [("access_token", .jstr "T"),
        ("expires_in", .jnum 100), ("resource", .jnull),
        ("token_type", .jstr "Bearer")]) = true ∨
    isCanonicalError (.jobj [("access_token", .jstr "T"),
        ("expires_in", .jnum 100), ("resource", .jnull),
        ("token_type", .jstr "Bearer")]) = true :=
  (canonical_exclusivity_amended 0
      ⟨"b", some (.jobj [("access_token", .jstr "T"),
                         ("expires_on", .jnum 100)])⟩
      (.jobj [("access_token", .jstr "T"), ("expires_in", .jnum 100),
              ("resource", .jnull), ("token_type", .jstr "Bearer")])).1
    rfl
